import Mathlib

/-!
Verification of the Gabor orientation game (`gabor_streamlit.py`).

The numeric core is embedded over exact arithmetic: the score-to-contrast
decay (`calculate_contrast`) over `ℚ`, and the Gabor patch synthesis
(`generate_gabor`) over `ℝ` with `Real.sin`, `Real.cos`, `Real.exp` and
`Real.pi` in place of the floating-point numpy routines.  The answer-checking
event handler (`check_answer`) is embedded as a pure function on an explicit
game-state record mirroring the Streamlit session state it mutates.
-/

namespace GaborGame

/-! ## Game parameters (source lines 29–36) -/

def CPD_OPTIONS : List ℕ := [3, 6, 12, 18]

def ORIENTATION_OPTIONS : List ℕ := [0, 45, 90]

def ORIENTATION_NAMES : List (ℕ × String) :=
  [(0, "Horizontal (→)"), (45, "Diagonal (↗)"), (90, "Vertical (↑)")]

def INITIAL_CONTRAST : ℚ := 0.5

def MIN_CONTRAST : ℚ := 0.0

def CONTRAST_DECAY_RATE : ℚ := 0.15

/-- `calculate_contrast(score)` (source lines 38–40):
`max(MIN_CONTRAST, INITIAL_CONTRAST * ((1 - CONTRAST_DECAY_RATE) ** score))`. -/
def calculate_contrast (score : ℕ) : ℚ :=
  max MIN_CONTRAST (INITIAL_CONTRAST * ((1 - CONTRAST_DECAY_RATE) ^ score))

/-- The clamp in `calculate_contrast` is inert: the geometric term is positive. -/
lemma calculate_contrast_eq (score : ℕ) :
    calculate_contrast score = 1 / 2 * (17 / 20 : ℚ) ^ score := by
  have hpos : (0 : ℚ) < 1 / 2 * (17 / 20 : ℚ) ^ score := by positivity
  have h : (INITIAL_CONTRAST * ((1 - CONTRAST_DECAY_RATE) ^ score)) =
      1 / 2 * (17 / 20 : ℚ) ^ score := by
    norm_num [INITIAL_CONTRAST, CONTRAST_DECAY_RATE]
  rw [calculate_contrast, h, show MIN_CONTRAST = 0 by norm_num [MIN_CONTRAST]]
  exact max_eq_right hpos.le

lemma contrast_nonneg (score : ℕ) : 0 ≤ calculate_contrast score := by
  rw [calculate_contrast_eq]; positivity

lemma contrast_le_half (score : ℕ) : calculate_contrast score ≤ 1 / 2 := by
  rw [calculate_contrast_eq]
  have h : (17 / 20 : ℚ) ^ score ≤ 1 := by
    apply pow_le_one₀ <;> norm_num
  nlinarith

/-! ## Session state and the answer handler (source lines 14–26, 76–91) -/

/-- The Streamlit session state touched by `check_answer`. -/
structure GameState where
  score : ℕ
  current_orientation : ℕ
  current_cpd : ℕ
  feedback : String
  feedback_color : String
  show_feedback : Bool
  deriving DecidableEq, Repr

/-- Lookup in the `ORIENTATION_NAMES` dict. -/
def orientationName (o : ℕ) : String :=
  (ORIENTATION_NAMES.lookup o).getD ""

/-- `check_answer(guessed_orientation)` (source lines 76–91), as a pure state
transformer: returns early when feedback is already showing, otherwise
increments the score exactly when the guess equals the drawn orientation and
sets the feedback fields. -/
def check_answer (guessed_orientation : ℕ) (s : GameState) : GameState :=
  if s.show_feedback then s
  else if guessed_orientation = s.current_orientation then
    { s with score := s.score + 1
             feedback := "✓ Correct!"
             feedback_color := "green"
             show_feedback := true }
  else
    { s with feedback := "✗ Wrong! It was " ++ orientationName s.current_orientation
             feedback_color := "red"
             show_feedback := true }

/-! ## The Gabor patch generator (source lines 42–67) -/

def size_pixels : ℕ := 512

noncomputable def size_degrees : ℝ := 8

noncomputable def sigma_degrees : ℝ := 1.2

/-- One coordinate of `np.linspace(-size_degrees/2, size_degrees/2, size_pixels)`:
sample `i` of 512 equally spaced points from −4 to 4 inclusive. -/
noncomputable def linspace_coord (i : ℕ) : ℝ :=
  -size_degrees / 2 + size_degrees * i / (size_pixels - 1)

/-- `np.deg2rad`. -/
noncomputable def deg2rad (d : ℝ) : ℝ := d * Real.pi / 180

/-- `theta = np.deg2rad(orientation_deg + 90)` (source line 54). -/
noncomputable def theta (orientation_deg : ℝ) : ℝ := deg2rad (orientation_deg + 90)

/-- The sinusoidal grating (source lines 57–58):
`sin((2π·cpd) · (x·cos θ + y·sin θ))`. -/
noncomputable def sine_grating (cpd orientation_deg x y : ℝ) : ℝ :=
  Real.sin ((2 * Real.pi * cpd) *
    (x * Real.cos (theta orientation_deg) + y * Real.sin (theta orientation_deg)))

/-- The Gaussian envelope (source line 61): `exp(−(x² + y²) / (2σ²))`. -/
noncomputable def gaussian_envelope (x y : ℝ) : ℝ :=
  Real.exp (-(x ^ 2 + y ^ 2) / (2 * sigma_degrees ^ 2))

/-- One luminance sample (source line 65): `0.5 + contrast · sine · gaussian`. -/
noncomputable def gabor_value (cpd orientation_deg contrast x y : ℝ) : ℝ :=
  0.5 + contrast * sine_grating cpd orientation_deg x y * gaussian_envelope x y

/-- `generate_gabor(cpd, orientation_deg, contrast)[i][j]`: the sample at row
`i`, column `j` of the 512×512 array; by `np.meshgrid`, the x-coordinate runs
along columns and the y-coordinate along rows. -/
noncomputable def generate_gabor (cpd orientation_deg contrast : ℝ)
    (i j : Fin 512) : ℝ :=
  gabor_value cpd orientation_deg contrast (linspace_coord j) (linspace_coord i)

/-! ## The spec-side description of the generator, for the refinement claim -/

/-- Modelled from the wording of the spec: sample `i` of the linearly spaced 512-point
grid spanning 8 degrees centered at the origin. -/
noncomputable def spec_grid_point (i : ℕ) : ℝ := -4 + 8 * i / 511

/-- Modelled from the wording of the spec: the luminance
`0.5 + contrast · sin(2π·f·(x·cos θ + y·sin θ)) · exp(−(x²+y²)/(2·1.2²))`
with `θ = (orientationDegrees + 90)` degrees in radians. -/
noncomputable def spec_luminance (spatialFrequency orientationDegrees contrast x y : ℝ) : ℝ :=
  0.5 + contrast *
    Real.sin (2 * Real.pi * spatialFrequency *
      (x * Real.cos ((orientationDegrees + 90) * Real.pi / 180) +
       y * Real.sin ((orientationDegrees + 90) * Real.pi / 180))) *
    Real.exp (-(x ^ 2 + y ^ 2) / (2 * (1.2 : ℝ) ^ 2))

/-! ## Claims about the difficulty controller -/

/-- C2: for every score, `calculate_contrast score = max 0 (1/2 * (85/100)^score)`;
`calculate_contrast 0 = 0.5` exactly, `calculate_contrast 1 = 0.425`, and
`calculate_contrast 2` is within `1/10000` of `0.3613`. -/
theorem contrast_matches_decay_formula :
    (∀ score : ℕ, calculate_contrast score = max 0 (1 / 2 * (85 / 100 : ℚ) ^ score)) ∧
    calculate_contrast 0 = 1 / 2 ∧
    calculate_contrast 1 = 425 / 1000 ∧
    |calculate_contrast 2 - 3613 / 10000| < 1 / 10000 := by
  have hform : ∀ score : ℕ, calculate_contrast score = max 0 (1 / 2 * (85 / 100 : ℚ) ^ score) := by
    intro score
    rw [calculate_contrast_eq]
    have hpos : (0 : ℚ) < 1 / 2 * (17 / 20 : ℚ) ^ score := by positivity
    rw [show (85 / 100 : ℚ) = 17 / 20 by norm_num, max_eq_right hpos.le]
  refine ⟨hform, ?_, ?_, ?_⟩
  · rw [calculate_contrast_eq]; norm_num
  · rw [calculate_contrast_eq]; norm_num
  · rw [calculate_contrast_eq, abs_lt]; constructor <;> norm_num

/-- C4: the contrast strictly decreases with each point of score and stays
strictly positive at every finite score. -/
theorem contrast_strictly_decreasing_and_positive :
    ∀ score : ℕ,
      calculate_contrast (score + 1) < calculate_contrast score ∧
      0 < calculate_contrast score := by
  intro score
  rw [calculate_contrast_eq, calculate_contrast_eq]
  constructor
  · have hpow : (0 : ℚ) < (17 / 20 : ℚ) ^ score := by positivity
    rw [pow_succ]
    nlinarith
  · positivity

/-- C8: the contrast is never negative, however large the score grows. -/
theorem contrast_never_negative :
    ∀ score : ℕ, 0 ≤ calculate_contrast score :=
  contrast_nonneg

/-! ## Claims about the answer handler -/

/-- C7: with no feedback showing, the score is incremented by exactly 1 iff
the guess equals the drawn orientation, and is unchanged otherwise. -/
theorem check_answer_scores_iff_exact_match (g : ℕ) (s : GameState)
    (h : s.show_feedback = false) :
    ((check_answer g s).score = s.score + 1 ↔ g = s.current_orientation) ∧
    (g ≠ s.current_orientation → (check_answer g s).score = s.score) := by
  by_cases hg : g = s.current_orientation <;>
    simp [check_answer, h, hg]

/-- A concrete presenting-phase state. -/
def presentingState : GameState :=
  { score := 0, current_orientation := 45, current_cpd := 3,
    feedback := "", feedback_color := "blue", show_feedback := false }

/-- Witness for C7 at a concrete presenting-phase state. -/
theorem check_answer_scores_iff_exact_match_witness :
    ((check_answer 45 presentingState).score = presentingState.score + 1 ↔
      45 = presentingState.current_orientation) ∧
    (45 ≠ presentingState.current_orientation →
      (check_answer 45 presentingState).score = presentingState.score) :=
  check_answer_scores_iff_exact_match 45 presentingState rfl

/-- C10: while feedback is showing, submitting any further answer leaves the
entire game state unchanged. -/
theorem check_answer_ignored_during_feedback (g : ℕ) (s : GameState)
    (h : s.show_feedback = true) :
    check_answer g s = s := by
  simp [check_answer, h]

/-- A concrete feedback-phase state. -/
def feedbackState : GameState :=
  { score := 5, current_orientation := 90, current_cpd := 6,
    feedback := "✓ Correct!", feedback_color := "green", show_feedback := true }

/-- Witness for C10 at a concrete feedback-phase state. -/
theorem check_answer_ignored_during_feedback_witness :
    check_answer 0 feedbackState = feedbackState :=
  check_answer_ignored_during_feedback 0 feedbackState rfl

/-! ## Claims about the stimulus generator -/

lemma linspace_coord_eq (k : ℕ) : linspace_coord k = -4 + 8 * k / 511 := by
  rw [linspace_coord, size_degrees, size_pixels]
  norm_num

/-- C1: every sample of the generated 512×512 array equals the formula stated in the spec
evaluated at the corresponding point of the linearly spaced grid. -/
theorem generate_gabor_matches_spec_formula (sf od c : ℝ) (i j : Fin 512) :
    generate_gabor sf od c i j =
      spec_luminance sf od c (spec_grid_point j) (spec_grid_point i) := by
  simp only [generate_gabor, gabor_value, sine_grating, gaussian_envelope, theta, deg2rad,
    spec_luminance, spec_grid_point, linspace_coord_eq, sigma_degrees]

/-- C6: zero contrast yields a uniform mid-gray field, exactly 0.5 everywhere. -/
theorem generate_gabor_zero_contrast_uniform_gray (cpd od : ℝ) (i j : Fin 512) :
    generate_gabor cpd od 0 i j = 0.5 := by
  simp [generate_gabor, gabor_value]

lemma theta_zero : theta 0 = Real.pi / 2 := by
  rw [theta, deg2rad]; ring

lemma theta_ninety : theta 90 = Real.pi := by
  rw [theta, deg2rad]; ring

/-- C5 (amended): for orientation 0° the sinusoidal grating factor is invariant
under translation along the x-axis, and for 90° along the y-axis; the full
luminance is not, because the circular Gaussian envelope also moves. -/
theorem sine_grating_invariant_along_stripes :
    (∀ cpd x₁ x₂ y : ℝ, sine_grating cpd 0 x₁ y = sine_grating cpd 0 x₂ y) ∧
    (∀ cpd x y₁ y₂ : ℝ, sine_grating cpd 90 x y₁ = sine_grating cpd 90 x y₂) := by
  constructor
  · intro cpd x₁ x₂ y
    simp [sine_grating, theta_zero, Real.cos_pi_div_two, Real.sin_pi_div_two]
  · intro cpd x y₁ y₂
    simp [sine_grating, theta_ninety, Real.cos_pi, Real.sin_pi]

/-- C5 counterexample: at orientation 0°, cpd 3, contrast 1/2, the two samples
of row 256 in columns 256 and 0 share their y-coordinate and differ only in x,
yet have different luminance: the Gaussian envelope depends on x. -/
theorem luminance_not_invariant_along_stripes :
    generate_gabor 3 0 (1 / 2) 256 256 ≠ generate_gabor 3 0 (1 / 2) 256 0 := by
  have hv256 : ((256 : Fin 512) : ℕ) = 256 := rfl
  have hv0 : ((0 : Fin 512) : ℕ) = 0 := rfl
  have hx1 : linspace_coord 256 = 4 / 511 := by rw [linspace_coord_eq]; norm_num
  have hx2 : linspace_coord 0 = -4 := by rw [linspace_coord_eq]; norm_num
  simp only [generate_gabor, hv256, hv0, hx1, hx2, gabor_value, sine_grating,
    gaussian_envelope, theta_zero, Real.cos_pi_div_two, Real.sin_pi_div_two,
    mul_zero, mul_one, zero_add, add_zero, sigma_degrees]
  have hS : 0 < Real.sin (2 * Real.pi * 3 * (4 / 511)) := by
    apply Real.sin_pos_of_pos_of_lt_pi
    · positivity
    · nlinarith [Real.pi_pos]
  have hE : Real.exp (-((-4 : ℝ) ^ 2 + (4 / 511) ^ 2) / (2 * (1.2 : ℝ) ^ 2)) <
      Real.exp (-((4 / 511 : ℝ) ^ 2 + (4 / 511) ^ 2) / (2 * (1.2 : ℝ) ^ 2)) := by
    rw [Real.exp_lt_exp]
    norm_num
  intro hEq
  nlinarith [mul_pos hS (sub_pos.mpr hE)]

/-- Any single luminance sample stays in `[0,1]` whenever the contrast lies in
`[0, 1/2]`: the sine factor has absolute value at most 1 and the Gaussian
envelope lies in `(0, 1]`. -/
lemma gabor_value_mem_unit_interval (cpd od c x y : ℝ) (h0 : 0 ≤ c) (h1 : c ≤ 1 / 2) :
    0 ≤ gabor_value cpd od c x y ∧ gabor_value cpd od c x y ≤ 1 := by
  have hs : |sine_grating cpd od x y| ≤ 1 := Real.abs_sin_le_one _
  have hg0 : 0 < gaussian_envelope x y := Real.exp_pos _
  have hg1 : gaussian_envelope x y ≤ 1 := by
    rw [gaussian_envelope, Real.exp_le_one_iff, sigma_degrees]
    apply div_nonpos_of_nonpos_of_nonneg
    · nlinarith [sq_nonneg x, sq_nonneg y]
    · norm_num
  have habs : |c * sine_grating cpd od x y * gaussian_envelope x y| ≤ 1 / 2 := by
    rw [abs_mul, abs_mul, abs_of_nonneg h0, abs_of_pos hg0]
    calc c * |sine_grating cpd od x y| * gaussian_envelope x y
        ≤ 1 / 2 * 1 * 1 :=
          mul_le_mul (mul_le_mul h1 hs (abs_nonneg _) (by norm_num)) hg1 hg0.le (by norm_num)
      _ = 1 / 2 := by norm_num
  obtain ⟨hl, hr⟩ := abs_le.mp habs
  rw [gabor_value]
  constructor <;> nlinarith

/-- C3 counterexample: with cpd 3 and orientation 0° from the option sets and
contrast 1 ∈ [0,1], the sample at row 261, column 255 — just off center, where
the envelope is nearly 1 and the sine factor is nearly at a crest — exceeds 1. -/
theorem luminance_exceeds_one_at_full_contrast :
    3 ∈ CPD_OPTIONS ∧ 0 ∈ ORIENTATION_OPTIONS ∧ ((0 : ℝ) ≤ 1 ∧ (1 : ℝ) ≤ 1) ∧
    1 < generate_gabor 3 0 1 261 255 := by
  refine ⟨by decide, by decide, ⟨by norm_num, le_refl 1⟩, ?_⟩
  have hv261 : ((261 : Fin 512) : ℕ) = 261 := rfl
  have hv255 : ((255 : Fin 512) : ℕ) = 255 := rfl
  have hx : linspace_coord 255 = -(4 / 511) := by rw [linspace_coord_eq]; norm_num
  have hy : linspace_coord 261 = 44 / 511 := by rw [linspace_coord_eq]; norm_num
  simp only [generate_gabor, hv261, hv255, hx, hy, gabor_value, sine_grating,
    gaussian_envelope, theta_zero, Real.cos_pi_div_two, Real.sin_pi_div_two,
    mul_zero, mul_one, zero_add, add_zero, one_mul, sigma_degrees]
  have harg : 2 * Real.pi * 3 * (44 / 511 : ℝ) = Real.pi / 2 + 17 * Real.pi / 1022 := by
    ring
  rw [harg, Real.sin_add, Real.sin_pi_div_two, Real.cos_pi_div_two]
  have ht0 : (0 : ℝ) ≤ 17 * Real.pi / 1022 := by positivity
  have ht1 : 17 * Real.pi / 1022 ≤ 0.0524 := by nlinarith [Real.pi_lt_d2]
  have hcos : (0.9986 : ℝ) ≤ Real.cos (17 * Real.pi / 1022) := by
    nlinarith [Real.one_sub_sq_div_two_le_cos (x := 17 * Real.pi / 1022)]
  have hBge : (-0.0026 : ℝ) ≤ -((-(4 / 511 : ℝ)) ^ 2 + (44 / 511) ^ 2) / (2 * (1.2 : ℝ) ^ 2) := by
    norm_num
  have hexp : (0.9974 : ℝ) ≤
      Real.exp (-((-(4 / 511 : ℝ)) ^ 2 + (44 / 511) ^ 2) / (2 * (1.2 : ℝ) ^ 2)) := by
    nlinarith [Real.add_one_le_exp (-((-(4 / 511 : ℝ)) ^ 2 + (44 / 511) ^ 2) / (2 * (1.2 : ℝ) ^ 2))]
  nlinarith [mul_le_mul hcos hexp (by norm_num : (0 : ℝ) ≤ 0.9974) (by nlinarith)]

/-- C3 (amended): for any frequency and orientation from the option sets and
any contrast in `[0, 1/2]` — the range the game actually uses — every sample of
the generated array lies in `[0, 1]`. -/
theorem generate_gabor_samples_in_unit_interval (cpd orient : ℕ)
    (hc : cpd ∈ CPD_OPTIONS) (ho : orient ∈ ORIENTATION_OPTIONS)
    (c : ℝ) (h0 : 0 ≤ c) (h1 : c ≤ 1 / 2) (i j : Fin 512) :
    0 ≤ generate_gabor cpd orient c i j ∧ generate_gabor cpd orient c i j ≤ 1 :=
  gabor_value_mem_unit_interval _ _ _ _ _ h0 h1

/-- Witness for the amended C3 at cpd 3, orientation 0°, contrast 1/2. -/
theorem generate_gabor_samples_in_unit_interval_witness :
    0 ≤ generate_gabor ((3 : ℕ) : ℝ) ((0 : ℕ) : ℝ) (1 / 2) 0 0 ∧
    generate_gabor ((3 : ℕ) : ℝ) ((0 : ℕ) : ℝ) (1 / 2) 0 0 ≤ 1 :=
  generate_gabor_samples_in_unit_interval 3 0 (by decide) (by decide) (1 / 2)
    (by norm_num) (by norm_num) 0 0

/-- C9: the contrast the game derives from any score never exceeds the initial
0.5, and with that contrast every rendered luminance sample lies in `[0, 1]`
even though `generate_gabor` itself does not clamp. -/
theorem game_contrast_keeps_luminance_in_range :
    (∀ score : ℕ, calculate_contrast score ≤ 1 / 2) ∧
    (∀ (score : ℕ) (cpd orientation_deg : ℝ) (i j : Fin 512),
      0 ≤ generate_gabor cpd orientation_deg ((calculate_contrast score : ℚ) : ℝ) i j ∧
      generate_gabor cpd orientation_deg ((calculate_contrast score : ℚ) : ℝ) i j ≤ 1) := by
  refine ⟨contrast_le_half, ?_⟩
  intro score cpd od i j
  have h0 : (0 : ℝ) ≤ ((calculate_contrast score : ℚ) : ℝ) := by
    exact_mod_cast contrast_nonneg score
  have h1 : ((calculate_contrast score : ℚ) : ℝ) ≤ 1 / 2 := by
    have h : ((calculate_contrast score : ℚ) : ℝ) ≤ ((1 / 2 : ℚ) : ℝ) := by
      exact_mod_cast contrast_le_half score
    simpa using h
  exact gabor_value_mem_unit_interval _ _ _ _ _ h0 h1

end GaborGame
